import Mathlib

/-!
Verification development for the Reddit compatibility analyzer
(`app_minimal.py`, `llm_providers.py`, `reddit_scraper.py`).

The pair sampler, prompt composer, provider registry and scraper entry
point are embedded shallowly as pure Lean functions.  Python machine
integers are modelled as `Nat`/`Int` (no overflow is possible at the
sizes involved), Python strings as `String` (a sequence of code points,
matching Python's `len` and slicing semantics), raised exceptions as
`Except` errors, and the unseeded random draw of `random.sample` as an
explicit parameter: a list of distinct positions into the population,
which is exactly the observable effect of sampling without replacement.
-/

namespace SemanticAnalyzer

/-! ## Pair sampler (src/app_minimal.py, `generate_analysis`, lines 135-146) -/

/-- `all_pairs = [(p1, p2) for p1 in posts1 for p2 in posts2]`:
the full cross-product, corpusA-major, corpusB-minor. -/
def allPairs (A B : List String) : List (String × String) :=
  A.flatMap fun a => B.map fun b => (a, b)

/-- Combined length `len(x[0]) + len(x[1])` used as the sort key. -/
def pairLen (p : String × String) : Nat := p.1.length + p.2.length

/-- The comparison realised by
`sorted(all_pairs, key=lambda x: len(x[0]) + len(x[1]), reverse=True)`:
`x` precedes `y` when the key of `y` is at most the key of `x`.
Python's `sorted` is a stable sort; `List.mergeSort` with this total
comparison is extensionally the same stable descending sort. -/
def lenDescLe (x y : String × String) : Bool := decide (pairLen y ≤ pairLen x)

/-- `sorted_pairs = sorted(all_pairs, key=..., reverse=True)`. -/
def sortedPairs (A B : List String) : List (String × String) :=
  (allPairs A B).mergeSort lenDescLe

/-- A valid outcome of `random.sample(P, k)`: `k` distinct positions of
the population `P`, in selection order.  This is the abstraction of the
unseeded random draw; every property below holds for every valid draw. -/
def ValidDraw (P : List (String × String)) (k : Nat) (idx : List Nat) : Prop :=
  idx.length = k ∧ idx.Nodup ∧ ∀ i ∈ idx, i < P.length

instance (P : List (String × String)) (k : Nat) (idx : List Nat) :
    Decidable (ValidDraw P k idx) := by
  unfold ValidDraw; infer_instance

/-- `random_pairs = random.sample(all_pairs, min(num_samples // 2, len(all_pairs)))`,
with the draw `idx` made explicit. -/
def randomPairs (A B : List String) (idx : List Nat) : List (String × String) :=
  idx.map fun i => (allPairs A B).getD i ("", "")

/-- `sample_pairs = random_pairs + longest_pairs` where
`longest_pairs = sorted_pairs[:num_samples // 2]`. -/
def samplePairs (A B : List String) (n : Nat) (idx : List Nat) : List (String × String) :=
  randomPairs A B idx ++ (sortedPairs A B).take (n / 2)

/-- The SampleSet actually used downstream: the prompt loop iterates over
`sample_pairs[:num_samples]`, so the concatenation is truncated to
`num_samples` entries before use. -/
def sampleSet (A B : List String) (n : Nat) (idx : List Nat) : List (String × String) :=
  (samplePairs A B n idx).take n

/-! ### Basic facts about the sampler embedding -/

theorem mem_allPairs {A B : List String} {p : String × String} :
    p ∈ allPairs A B ↔ p.1 ∈ A ∧ p.2 ∈ B := by
  unfold allPairs
  simp only [List.mem_flatMap, List.mem_map]
  constructor
  · rintro ⟨a, ha, b, hb, rfl⟩
    exact ⟨ha, hb⟩
  · rintro ⟨h1, h2⟩
    exact ⟨p.1, h1, p.2, h2, rfl⟩

theorem lenDescLe_trans (a b c : String × String) :
    lenDescLe a b → lenDescLe b c → lenDescLe a c := by
  simp only [lenDescLe, decide_eq_true_eq]
  omega

theorem lenDescLe_total (a b : String × String) :
    lenDescLe a b || lenDescLe b a := by
  simp only [lenDescLe]
  by_cases h : pairLen b ≤ pairLen a
  · simp [h]
  · simp [le_of_not_le h]

theorem sortedPairs_perm (A B : List String) :
    (sortedPairs A B).Perm (allPairs A B) :=
  List.mergeSort_perm (allPairs A B) lenDescLe

theorem sortedPairs_sorted (A B : List String) :
    (sortedPairs A B).Pairwise fun x y => pairLen y ≤ pairLen x := by
  have h := List.sorted_mergeSort lenDescLe_trans lenDescLe_total (allPairs A B)
  exact h.imp fun hxy => by
    simpa [lenDescLe, decide_eq_true_eq] using hxy

theorem mem_randomPairs {A B : List String} {idx : List Nat} {k : Nat}
    (hv : ValidDraw (allPairs A B) k idx) :
    ∀ p ∈ randomPairs A B idx, p ∈ allPairs A B := by
  intro p hp
  obtain ⟨i, hi, rfl⟩ := List.mem_map.mp hp
  have hlt : i < (allPairs A B).length := hv.2.2 i hi
  rw [List.getD_eq_getElem _ _ hlt]
  exact List.getElem_mem hlt

/-! ## Prompt composer (src/app_minimal.py, `generate_analysis`, lines 145-149) -/

/-- Python slicing `s[:n]` on a `str`: the first `n` code points. -/
def strTake (s : String) (n : Nat) : String := String.mk (s.data.take n)

/-- The rendering of one body inside a pair block:
`f"{p[:300]}{A if len(p) > 300 else B}"` with `A = "..."` and `B = ""`. -/
def truncBody (s : String) : String :=
  strTake s 300 ++ (if 300 < s.length then "..." else "")

/-- One `**Pair i:**` block of `pairs_text` (the three `+=` lines of the loop). -/
def pairBlock (u1 u2 : String) (i : Nat) (p : String × String) : String :=
  "\n**Pair " ++ toString i ++ ":**\n" ++
  "• " ++ u1 ++ ": " ++ truncBody p.1 ++ "\n" ++
  "• " ++ u2 ++ ": " ++ truncBody p.2 ++ "\n"

/-- `pairs_text` accumulated by
`for i, (p1, p2) in enumerate(sample_pairs[:num_samples], 1)`. -/
def pairsText (u1 u2 : String) (pairs : List (String × String)) (n : Nat) : String :=
  String.join ((List.enumFrom 1 (pairs.take n)).map fun ip => pairBlock u1 u2 ip.1 ip.2)

/-- Modelled from the spec: one pair block in which both bodies "pass
through unchanged" (verbatim, no truncation applied).  Used only to state
the refinement that composition leaves short bodies verbatim. -/
def pairBlockRaw (u1 u2 : String) (i : Nat) (p : String × String) : String :=
  "\n**Pair " ++ toString i ++ ":**\n" ++
  "• " ++ u1 ++ ": " ++ p.1 ++ "\n" ++
  "• " ++ u2 ++ ": " ++ p.2 ++ "\n"

/-- Modelled from the spec: `pairs_text` rendered with every body verbatim. -/
def pairsTextRaw (u1 u2 : String) (pairs : List (String × String)) (n : Nat) : String :=
  String.join ((List.enumFrom 1 (pairs.take n)).map fun ip => pairBlockRaw u1 u2 ip.1 ip.2)

/-! ## Provider registry (src/llm_providers.py) -/

/-- The spec's error taxonomy, used to classify the exceptions raised by
`llm_providers.py`: `ValueError("Unknown provider: ...")` in
`get_provider` is a `configurationError`, `ValueError("<VAR> not set")`
in `generate` is an `authenticationError`, and `ImportError("Install ...")`
in a constructor is a `dependencyError`. -/
inductive ProviderError where
  | configurationError : String → ProviderError
  | authenticationError : String → ProviderError
  | dependencyError : String → ProviderError
deriving DecidableEq

/-- The five keys of the `providers` dict in `LLMProvider.get_provider`. -/
inductive ProviderTag where
  | groq | openai | anthropic | gemini | cohere
deriving DecidableEq

/-- `providers.get(name)`: the dict lookup over the five known keys. -/
def providersLookup (s : String) : Option ProviderTag :=
  if s = "groq" then some .groq
  else if s = "openai" then some .openai
  else if s = "anthropic" then some .anthropic
  else if s = "gemini" then some .gemini
  else if s = "cohere" then some .cohere
  else none

/-- The process environment and runtime seen by the constructors: for
each provider, the value of its credential environment variable
(`os.getenv`, `none` when unset) and whether its vendor client library
can be imported. -/
structure ProviderEnv where
  groqKey : Option String
  openaiKey : Option String
  anthropicKey : Option String
  googleKey : Option String
  cohereKey : Option String
  groqLib : Bool
  openaiLib : Bool
  anthropicLib : Bool
  geminiLib : Bool
  cohereLib : Bool

/-- Python truthiness of `self.api_key` (an `Optional[str]`):
falsy when `None` or the empty string. -/
def isTruthy : Option String → Bool
  | none => false
  | some s => !(s == "")

/-- The state of a constructed provider object: its tag, the stored
`api_key`, the `model` field, and whether `self.client` was set. -/
structure ProviderState where
  tag : ProviderTag
  apiKey : Option String
  model : String
  clientReady : Bool
deriving DecidableEq

/-- The credential env var read by each constructor. -/
def credKey (env : ProviderEnv) : ProviderTag → Option String
  | .groq => env.groqKey
  | .openai => env.openaiKey
  | .anthropic => env.anthropicKey
  | .gemini => env.googleKey
  | .cohere => env.cohereKey

/-- Library availability per provider. -/
def libAvailable (env : ProviderEnv) : ProviderTag → Bool
  | .groq => env.groqLib
  | .openai => env.openaiLib
  | .anthropic => env.anthropicLib
  | .gemini => env.geminiLib
  | .cohere => env.cohereLib

/-- The hard-coded `self.model` of each constructor. -/
def defaultModel : ProviderTag → String
  | .groq => "llama-3.3-70b-versatile"
  | .openai => "gpt-3.5-turbo"
  | .anthropic => "claude-3-haiku-20240307"
  | .gemini => "gemini-1.5-flash"
  | .cohere => "command"

/-- The `ImportError` message of each constructor. -/
def depErrMsg : ProviderTag → String
  | .groq => "Install groq: pip install groq"
  | .openai => "Install openai: pip install openai"
  | .anthropic => "Install anthropic: pip install anthropic"
  | .gemini => "Install: pip install google-generativeai"
  | .cohere => "Install: pip install cohere"

/-- The `ValueError` message of each `generate` when `self.client` is unset. -/
def credErrMsg : ProviderTag → String
  | .groq => "GROQ_API_KEY not set"
  | .openai => "OPENAI_API_KEY not set"
  | .anthropic => "ANTHROPIC_API_KEY not set"
  | .gemini => "GOOGLE_API_KEY not set"
  | .cohere => "COHERE_API_KEY not set"

/-- `__init__` of a provider class: store the env var; if it is truthy,
load the vendor library (raising `ImportError` -> `dependencyError`
when unavailable) and set `self.client`; otherwise leave
`self.client = None` and succeed. -/
def constructProvider (t : ProviderTag) (env : ProviderEnv) :
    Except ProviderError ProviderState :=
  if isTruthy (credKey env t) then
    if libAvailable env t then
      .ok { tag := t, apiKey := credKey env t, model := defaultModel t, clientReady := true }
    else
      .error (.dependencyError (depErrMsg t))
  else
    .ok { tag := t, apiKey := credKey env t, model := defaultModel t, clientReady := false }

/-- Python `provider_name.lower()`: lower-case every character (provider
names are ASCII, where `Char.toLower` agrees with Python). -/
def strLower (s : String) : String := String.mk (s.data.map Char.toLower)

/-- `LLMProvider.get_provider`: lowercase the name, look it up, construct
on success and raise `ValueError("Unknown provider: ...")` ->
`configurationError` otherwise. -/
def get_provider (name : String) (env : ProviderEnv) :
    Except ProviderError ProviderState :=
  match providersLookup (strLower name) with
  | some t => constructProvider t env
  | none => .error (.configurationError ("Unknown provider: " ++ name))

/-- `generate`: raise `ValueError("<VAR> not set")` -> `authenticationError`
when `self.client` is unset, otherwise delegate to the vendor call
(abstracted as the function `vendor`, since the network is external). -/
def ProviderState.generate (p : ProviderState) (vendor : ProviderTag → String → String)
    (prompt : String) : Except ProviderError String :=
  if p.clientReady then .ok (vendor p.tag prompt)
  else .error (.authenticationError (credErrMsg p.tag))

/-! ## Scraper entry point (src/reddit_scraper.py, `fetch_user_posts`) -/

/-- One candidate row built inside the fetch loops: the assembled text
and its score.  The concrete text assembly (`title. selftext`, `strip`)
happens upstream of the behaviour the claims are about. -/
structure RawItem where
  text : String
  score : Int
deriving DecidableEq

/-- What iterating the user's submissions and comments does: either
yields rows, or raises (account missing, API unreachable, ...). -/
inductive Upstream where
  | items : List RawItem → Upstream
  | raised : String → Upstream

/-- The row filter `if text and len(text) > 10`. -/
def qualifies (t : String) : Bool := !(t == "") && decide (10 < t.length)

/-- The body of the `try` block: collect qualifying rows and sort by
score, most popular first (`df.sort_values('score', ascending=False)`,
modelled with a concrete stable sort; no claim depends on tie order). -/
def processRows (rows : List RawItem) : List RawItem :=
  (rows.filter fun r => qualifies r.text).mergeSort fun x y => decide (y.score ≤ x.score)

/-- `RedditScraper.fetch_user_posts`: when `self.reddit` is unset and a
credential is missing, raise `ValueError("Reddit API credentials required! ...")`;
otherwise run the fetch inside `try/except`, where any upstream exception
is caught, logged, and an EMPTY frame is returned (`return pd.DataFrame()`). -/
def fetch_user_posts (clientId clientSecret : Option String) (redditReady : Bool)
    (upstream : Upstream) : Except String (List RawItem) :=
  if !redditReady && (!(isTruthy clientId) || !(isTruthy clientSecret)) then
    .error ("Reddit API credentials required! " ++
      "Add REDDIT_CLIENT_ID and REDDIT_CLIENT_SECRET to secrets.toml")
  else
    match upstream with
    | .raised _ => .ok []
    | .items rows => .ok (processRows rows)

/-! ## Claim theorems: the pair sampler -/

/-- C1: for every pair of corpora and every `num_samples >= 1`, the
sampler result is the concatenation of `k1 = min(num_samples // 2, |P|)`
pairs drawn without replacement from the cross-product `P` (the unseeded
uniform draw abstracted as an arbitrary valid index list), followed by
the first `num_samples // 2` entries of `P` sorted by combined length
descending, the concatenation truncated to `num_samples` entries before
use. -/
theorem c1_sampler_structure (A B : List String) (n : Nat) (idx : List Nat)
    (hn : 1 ≤ n)
    (hv : ValidDraw (allPairs A B) (min (n / 2) (allPairs A B).length) idx) :
    sampleSet A B n idx =
      (randomPairs A B idx ++ (sortedPairs A B).take (n / 2)).take n ∧
    (randomPairs A B idx).length = min (n / 2) (allPairs A B).length ∧
    (∀ p ∈ randomPairs A B idx, p ∈ allPairs A B) ∧
    (sortedPairs A B).Perm (allPairs A B) ∧
    (sortedPairs A B).Pairwise (fun x y => pairLen y ≤ pairLen x) := by
  refine ⟨rfl, ?_, mem_randomPairs hv, sortedPairs_perm A B, sortedPairs_sorted A B⟩
  simpa [randomPairs] using hv.1

/-- C1 witness: two concrete corpora, `num_samples = 3`, draw `[1]`. -/
theorem c1_sampler_structure_witness :
    sampleSet ["ab"] ["c", "dddd"] 3 [1] =
      (randomPairs ["ab"] ["c", "dddd"] [1] ++
        (sortedPairs ["ab"] ["c", "dddd"]).take (3 / 2)).take 3 ∧
    (randomPairs ["ab"] ["c", "dddd"] [1]).length =
      min (3 / 2) (allPairs ["ab"] ["c", "dddd"]).length ∧
    (∀ p ∈ randomPairs ["ab"] ["c", "dddd"] [1], p ∈ allPairs ["ab"] ["c", "dddd"]) ∧
    (sortedPairs ["ab"] ["c", "dddd"]).Perm (allPairs ["ab"] ["c", "dddd"]) ∧
    (sortedPairs ["ab"] ["c", "dddd"]).Pairwise (fun x y => pairLen y ≤ pairLen x) :=
  c1_sampler_structure ["ab"] ["c", "dddd"] 3 [1] (by decide) (by decide)

/-- C2: for non-empty corpora and `num_samples >= 2`, the SampleSet has
at most `num_samples` entries and every pair is drawn from corpusA and
corpusB respectively. -/
theorem c2_sample_membership (A B : List String) (n : Nat) (idx : List Nat)
    (hA : A ≠ []) (hB : B ≠ []) (hn : 2 ≤ n)
    (hv : ValidDraw (allPairs A B) (min (n / 2) (allPairs A B).length) idx) :
    (sampleSet A B n idx).length ≤ n ∧
    ∀ p ∈ sampleSet A B n idx, p.1 ∈ A ∧ p.2 ∈ B := by
  constructor
  · exact List.length_take_le n (samplePairs A B n idx)
  · intro p hp
    have hp1 : p ∈ randomPairs A B idx ++ (sortedPairs A B).take (n / 2) :=
      List.take_subset n _ hp
    rcases List.mem_append.mp hp1 with h | h
    · exact mem_allPairs.mp (mem_randomPairs hv p h)
    · have h2 : p ∈ sortedPairs A B := List.take_subset _ _ h
      exact mem_allPairs.mp ((sortedPairs_perm A B).mem_iff.mp h2)

/-- C2 witness: concrete corpora, `num_samples = 3`, draw `[1]`. -/
theorem c2_sample_membership_witness :
    (sampleSet ["ab"] ["c", "dddd"] 3 [1]).length ≤ 3 ∧
    ∀ p ∈ sampleSet ["ab"] ["c", "dddd"] 3 [1], p.1 ∈ ["ab"] ∧ p.2 ∈ ["c", "dddd"] :=
  c2_sample_membership ["ab"] ["c", "dddd"] 3 [1]
    (by decide) (by decide) (by decide) (by decide)

/-- C5: with corpora and `num_samples` fixed, the longest-pairs portion
of the SampleSet (everything after the `k1` random entries) is the same
for any two draws; only the random portion can differ. -/
theorem c5_longest_portion_deterministic (A B : List String) (n : Nat)
    (idx1 idx2 : List Nat)
    (h1 : ValidDraw (allPairs A B) (min (n / 2) (allPairs A B).length) idx1)
    (h2 : ValidDraw (allPairs A B) (min (n / 2) (allPairs A B).length) idx2) :
    (sampleSet A B n idx1).drop (min (n / 2) (allPairs A B).length) =
    (sampleSet A B n idx2).drop (min (n / 2) (allPairs A B).length) := by
  have len1 : (randomPairs A B idx1).length = min (n / 2) (allPairs A B).length := by
    simpa [randomPairs] using h1.1
  have len2 : (randomPairs A B idx2).length = min (n / 2) (allPairs A B).length := by
    simpa [randomPairs] using h2.1
  simp only [sampleSet, samplePairs]
  rw [List.drop_take, List.drop_take, List.drop_left' len1, List.drop_left' len2]

/-- C5 witness: two different draws over the same corpora. -/
theorem c5_longest_portion_deterministic_witness :
    (sampleSet ["ab"] ["c", "dddd"] 3 [1]).drop
        (min (3 / 2) (allPairs ["ab"] ["c", "dddd"]).length) =
    (sampleSet ["ab"] ["c", "dddd"] 3 [0]).drop
        (min (3 / 2) (allPairs ["ab"] ["c", "dddd"]).length) :=
  c5_longest_portion_deterministic ["ab"] ["c", "dddd"] 3 [1] [0]
    (by decide) (by decide)

/-- C6: the longest-pairs selection sorts the full cross-product by
combined length descending, stably: the sorted sequence is a permutation
of the cross-product, is pairwise descending in `pairLen`, and for every
key value `k` the entries of combined length `k` appear in exactly their
original cross-product enumeration order (corpusA-major, corpusB-minor). -/
theorem c6_sort_descending_stable (A B : List String) (k : Nat) :
    (sortedPairs A B).Perm (allPairs A B) ∧
    (sortedPairs A B).Pairwise (fun x y => pairLen y ≤ pairLen x) ∧
    (sortedPairs A B).filter (fun p => pairLen p == k) =
      (allPairs A B).filter (fun p => pairLen p == k) := by
  refine ⟨sortedPairs_perm A B, sortedPairs_sorted A B, ?_⟩
  set P := allPairs A B with hP
  set q : String × String → Bool := fun p => pairLen p == k with hq
  have hmem : ∀ p ∈ P.filter q, pairLen p = k := by
    intro p hp
    have := (List.mem_filter.mp hp).2
    simpa [hq] using this
  have hpw : (P.filter q).Pairwise fun x y => lenDescLe x y := by
    apply List.pairwise_of_forall_mem_list
    intro x hx y hy
    simp [lenDescLe, hmem x hx, hmem y hy]
  have hsub : List.Sublist (P.filter q) (P.mergeSort lenDescLe) :=
    List.sublist_mergeSort lenDescLe_trans lenDescLe_total hpw (List.filter_sublist P)
  have hself : (P.filter q).filter q = P.filter q :=
    List.filter_eq_self.mpr fun a ha => (List.mem_filter.mp ha).2
  have hsub2 : List.Sublist (P.filter q) ((P.mergeSort lenDescLe).filter q) := by
    have h := hsub.filter q
    rwa [hself] at h
  have hperm : ((P.mergeSort lenDescLe).filter q).Perm (P.filter q) :=
    (List.mergeSort_perm P lenDescLe).filter q
  have heq : P.filter q = (P.mergeSort lenDescLe).filter q :=
    hsub2.eq_of_length (by rw [hperm.length_eq])
  exact heq.symm

/-- C8: when either input corpus is empty, the sampler returns the empty
SampleSet and signals no error (it is a total function). -/
theorem c8_empty_corpus (A B : List String) (n : Nat) (idx1 idx2 : List Nat)
    (h1 : ValidDraw (allPairs [] B) (min (n / 2) (allPairs [] B).length) idx1)
    (h2 : ValidDraw (allPairs A []) (min (n / 2) (allPairs A []).length) idx2) :
    sampleSet [] B n idx1 = [] ∧ sampleSet A [] n idx2 = [] := by
  have hA : allPairs A ([] : List String) = [] := by simp [allPairs]
  have hB : allPairs ([] : List String) B = [] := rfl
  have e1 : idx1 = [] := List.eq_nil_of_length_eq_zero (by simpa [hB] using h1.1)
  have e2 : idx2 = [] := List.eq_nil_of_length_eq_zero (by simpa [hA] using h2.1)
  subst e1
  subst e2
  constructor
  · simp [sampleSet, samplePairs, randomPairs, sortedPairs, hB]
  · simp [sampleSet, samplePairs, randomPairs, sortedPairs, hA]

/-- C8 witness: the spec example `sample([], ["x"], 10)` plus the
symmetric case. -/
theorem c8_empty_corpus_witness :
    sampleSet [] ["x"] 10 [] = [] ∧ sampleSet ["y"] [] 10 [] = [] :=
  c8_empty_corpus ["y"] ["x"] 10 [] [] (by decide) (by decide)

/-- C10: with `num_samples = 1` both halves take `1 / 2 = 0` entries,
so the sampler returns the empty SampleSet whatever the corpora are. -/
theorem c10_single_sample_empty (A B : List String) (idx : List Nat)
    (hv : ValidDraw (allPairs A B) (min (1 / 2) (allPairs A B).length) idx) :
    sampleSet A B 1 idx = [] := by
  have e : idx = [] := List.eq_nil_of_length_eq_zero (by simpa using hv.1)
  subst e
  simp [sampleSet, samplePairs, randomPairs]

/-- C10 witness: non-empty corpora, `num_samples = 1`. -/
theorem c10_single_sample_empty_witness :
    sampleSet ["abc"] ["defg"] 1 [] = [] :=
  c10_single_sample_empty ["abc"] ["defg"] [] (by decide)

/-! ## Claim theorems: the prompt composer -/

theorem strTake_of_le (s : String) (n : Nat) (h : s.length ≤ n) : strTake s n = s := by
  cases s with
  | mk data =>
      have hd : data.length ≤ n := h
      simp [strTake, List.take_of_length_le hd]

theorem truncBody_of_le (s : String) (h : s.length ≤ 300) : truncBody s = s := by
  unfold truncBody
  rw [if_neg (by omega), strTake_of_le s 300 h]
  simp

theorem snd_mem_of_mem_enumFrom {α : Type} {l : List α} :
    ∀ {n : Nat} {ip : Nat × α}, ip ∈ List.enumFrom n l → ip.2 ∈ l := by
  induction l with
  | nil => intro n ip h; simp at h
  | cons a as ih =>
      intro n ip h
      rw [List.enumFrom_cons] at h
      rcases List.mem_cons.mp h with rfl | h
      · exact List.mem_cons_self a as
      · exact List.mem_cons_of_mem a (ih h)

/-- C7: in the composed prompt every sampled body of at most 300
characters appears verbatim (the rendering agrees with the verbatim
rendering `pairsTextRaw`), every body longer than 300 characters is cut
at character 300 with the ellipsis token appended, and composition is a
pure function of the SampleSet, which it does not alter. -/
theorem c7_prompt_truncation (u1 u2 : String) (ps : List (String × String))
    (n : Nat) (s : String)
    (hshort : ∀ p ∈ ps, p.1.length ≤ 300 ∧ p.2.length ≤ 300)
    (hlong : 300 < s.length) :
    pairsText u1 u2 ps n = pairsTextRaw u1 u2 ps n ∧
    truncBody s = strTake s 300 ++ "..." ∧
    ∀ t : String, t.length ≤ 300 → truncBody t = t := by
  refine ⟨?_, ?_, fun t ht => truncBody_of_le t ht⟩
  · unfold pairsText pairsTextRaw
    refine congrArg String.join (List.map_congr_left ?_)
    intro ip hip
    have hmem : ip.2 ∈ ps := List.take_subset n ps (snd_mem_of_mem_enumFrom hip)
    obtain ⟨h1, h2⟩ := hshort ip.2 hmem
    unfold pairBlock pairBlockRaw
    rw [truncBody_of_le _ h1, truncBody_of_le _ h2]
  · unfold truncBody
    rw [if_pos hlong]

set_option maxRecDepth 4000 in
/-- C7 witness: a SampleSet of short bodies and one 301-character body. -/
theorem c7_prompt_truncation_witness :
    pairsText "alice" "bob" [("hi", "yo")] 4 = pairsTextRaw "alice" "bob" [("hi", "yo")] 4 ∧
    truncBody (String.mk (List.replicate 301 'a')) =
      strTake (String.mk (List.replicate 301 'a')) 300 ++ "..." ∧
    (∀ t : String, t.length ≤ 300 → truncBody t = t) :=
  c7_prompt_truncation "alice" "bob" [("hi", "yo")] 4
    (String.mk (List.replicate 301 'a')) (by decide) (by decide)

/-! ## Claim theorems: the provider registry -/

/-- C3: resolving a logical provider name not in the registry fails with
the configuration error carrying the unknown name (no fallback to any
default provider), and resolution of known names is case-insensitive:
any two spellings with the same lowercasing resolve alike, to the
registered backend. -/
theorem c3_unknown_provider (s u v : String) (env : ProviderEnv) (t : ProviderTag)
    (h1 : providersLookup (strLower s) = none)
    (h2 : strLower u = strLower v)
    (h3 : providersLookup (strLower u) = some t) :
    get_provider s env =
      .error (.configurationError ("Unknown provider: " ++ s)) ∧
    get_provider u env = get_provider v env ∧
    get_provider u env = constructProvider t env := by
  have h4 : providersLookup (strLower v) = some t := by rw [← h2]; exact h3
  refine ⟨?_, ?_, ?_⟩
  · unfold get_provider
    rw [h1]
  · unfold get_provider
    rw [h3, h4]
  · unfold get_provider
    rw [h3]

/-- C3 witness: the name from the spec example and the GROQ/groq pair of
spellings, in an environment with no credentials. -/
theorem c3_unknown_provider_witness :
    get_provider "not-a-real-provider"
        { groqKey := none, openaiKey := none, anthropicKey := none,
          googleKey := none, cohereKey := none, groqLib := false,
          openaiLib := false, anthropicLib := false, geminiLib := false,
          cohereLib := false } =
      .error (.configurationError ("Unknown provider: " ++ "not-a-real-provider")) ∧
    get_provider "GROQ"
        { groqKey := none, openaiKey := none, anthropicKey := none,
          googleKey := none, cohereKey := none, groqLib := false,
          openaiLib := false, anthropicLib := false, geminiLib := false,
          cohereLib := false } =
      get_provider "groq"
        { groqKey := none, openaiKey := none, anthropicKey := none,
          googleKey := none, cohereKey := none, groqLib := false,
          openaiLib := false, anthropicLib := false, geminiLib := false,
          cohereLib := false } ∧
    get_provider "GROQ"
        { groqKey := none, openaiKey := none, anthropicKey := none,
          googleKey := none, cohereKey := none, groqLib := false,
          openaiLib := false, anthropicLib := false, geminiLib := false,
          cohereLib := false } =
      constructProvider .groq
        { groqKey := none, openaiKey := none, anthropicKey := none,
          googleKey := none, cohereKey := none, groqLib := false,
          openaiLib := false, anthropicLib := false, geminiLib := false,
          cohereLib := false } :=
  c3_unknown_provider "not-a-real-provider" "GROQ" "groq" _ .groq
    (by decide) (by decide) (by decide)

/-- C4: with the credential env var absent (falsy), the Groq constructor
succeeds in a disabled state (`client = None`) and every `generate` call
on that object fails with the authentication error; with the credential
present but the groq client library unavailable, construction itself
fails with the dependency error. -/
theorem c4_lazy_auth_eager_dependency (env1 env2 : ProviderEnv)
    (vendor : ProviderTag → String → String) (prompt : String)
    (h1 : isTruthy env1.groqKey = false)
    (h2 : isTruthy env2.groqKey = true) (h3 : env2.groqLib = false) :
    constructProvider .groq env1 =
      .ok { tag := .groq, apiKey := env1.groqKey,
            model := "llama-3.3-70b-versatile", clientReady := false } ∧
    ProviderState.generate
        { tag := .groq, apiKey := env1.groqKey,
          model := "llama-3.3-70b-versatile", clientReady := false }
        vendor prompt =
      .error (.authenticationError "GROQ_API_KEY not set") ∧
    constructProvider .groq env2 =
      .error (.dependencyError "Install groq: pip install groq") := by
  refine ⟨?_, ?_, ?_⟩
  · simp [constructProvider, credKey, h1, defaultModel]
  · simp [ProviderState.generate, credErrMsg]
  · simp [constructProvider, credKey, libAvailable, h2, h3, depErrMsg]

/-- C4 witness: an environment with no Groq key, and one with a key but
no importable groq library. -/
theorem c4_lazy_auth_eager_dependency_witness :
    constructProvider .groq
        { groqKey := none, openaiKey := none, anthropicKey := none,
          googleKey := none, cohereKey := none, groqLib := true,
          openaiLib := false, anthropicLib := false, geminiLib := false,
          cohereLib := false } =
      .ok { tag := .groq, apiKey := none,
            model := "llama-3.3-70b-versatile", clientReady := false } ∧
    ProviderState.generate
        { tag := .groq, apiKey := none,
          model := "llama-3.3-70b-versatile", clientReady := false }
        (fun _ _ => "") "" =
      .error (.authenticationError "GROQ_API_KEY not set") ∧
    constructProvider .groq
        { groqKey := some "gsk-test", openaiKey := none, anthropicKey := none,
          googleKey := none, cohereKey := none, groqLib := false,
          openaiLib := false, anthropicLib := false, geminiLib := false,
          cohereLib := false } =
      .error (.dependencyError "Install groq: pip install groq") :=
  c4_lazy_auth_eager_dependency _ _ (fun _ _ => "") ""
    (by decide) (by decide) (by decide)

/-! ## Claim theorems: the corpus fetch -/

/-- C9 counterexample: with valid credentials and a live client, an
upstream failure while iterating the account (account missing, API
unreachable) is caught by the `try/except` in `fetch_user_posts`, which
returns an empty frame instead of propagating the error verbatim. -/
theorem c9_fetch_counterexample :
    fetch_user_posts (some "cid") (some "csecret") true
        (Upstream.raised "received 404 HTTP response") = Except.ok [] ∧
    fetch_user_posts (some "cid") (some "csecret") true
        (Upstream.raised "received 404 HTTP response") ≠
      Except.error "received 404 HTTP response" := by
  refine ⟨rfl, ?_⟩
  intro h
  simp [fetch_user_posts, isTruthy] at h

/-- C9 (amended): the fetch fails with an error only when no client is
initialized and a credential is absent; when iterating the account
raises (account missing, API unreachable) the exception is caught and an
empty sequence is returned, exactly as for an existing account with no
qualifying content. -/
theorem c9_fetch_amended (cid1 csec1 cid2 csec2 : Option String)
    (msg : String) (rows : List RawItem)
    (h1 : isTruthy cid1 = false ∨ isTruthy csec1 = false)
    (h2 : isTruthy cid2 = true) (h3 : isTruthy csec2 = true)
    (h4 : ∀ r ∈ rows, qualifies r.text = false) :
    fetch_user_posts cid1 csec1 false (Upstream.raised msg) =
      .error ("Reddit API credentials required! " ++
        "Add REDDIT_CLIENT_ID and REDDIT_CLIENT_SECRET to secrets.toml") ∧
    fetch_user_posts cid2 csec2 false (Upstream.raised msg) = .ok [] ∧
    fetch_user_posts cid2 csec2 false (Upstream.items rows) = .ok [] := by
  refine ⟨?_, ?_, ?_⟩
  · rcases h1 with h | h <;> simp [fetch_user_posts, h]
  · simp [fetch_user_posts, h2, h3]
  · have hnil : rows.filter (fun r => qualifies r.text) = [] :=
      List.filter_eq_nil_iff.mpr fun r hr => by simp [h4 r hr]
    simp [fetch_user_posts, h2, h3, processRows, hnil]

/-- C9 (amended) witness: missing credentials; then valid credentials
with a raising account and with an account whose items are all shorter
than the 10-character threshold. -/
theorem c9_fetch_amended_witness :
    fetch_user_posts none none false (Upstream.raised "received 404 HTTP response") =
      .error ("Reddit API credentials required! " ++
        "Add REDDIT_CLIENT_ID and REDDIT_CLIENT_SECRET to secrets.toml") ∧
    fetch_user_posts (some "cid") (some "csecret") false
        (Upstream.raised "received 404 HTTP response") = .ok [] ∧
    fetch_user_posts (some "cid") (some "csecret") false
        (Upstream.items [{ text := "short", score := 3 }]) = .ok [] :=
  c9_fetch_amended none none (some "cid") (some "csecret")
    "received 404 HTTP response" [{ text := "short", score := 3 }]
    (Or.inl rfl) (by decide) (by decide) (by decide)

end SemanticAnalyzer
